import Mathlib

/-!
Verification of the fraud-detection stub of the Online_Fraud_Detection
repository.

The repository has exactly two pieces of executable scoring logic:

* `detectFraud` (the client-side mock), which parses the transaction
  amount, picks an amount tier, and fills a `DetectionResult` from four
  consecutive `Math.random()` draws;
* the AWS Lambda `handler` (the server-side mock), which preprocesses a
  transaction into a feature vector of six random sub-scores, runs a
  weighted classical screening model, and runs a secondary quantum
  stage exactly when the classical confidence is below 0.85.

Numbers are embedded as rationals.  Randomness is made explicit: an
argument `rng : ℕ → ℚ` gives the value of the successive
`Math.random()` calls, in source order; the JavaScript contract
`0 ≤ rng n < 1` is a hypothesis where a theorem needs it.  JavaScript
`NaN` (the result of `Number.parseFloat` on an unparseable string) is
embedded as `none : Option ℚ`, with the JavaScript rule that every
`>` comparison against `NaN` is false.
-/

/-- The `TransactionData` record of `src/types.ts`: every field is a
string, the amount included. -/
structure TransactionData where
  amount : String
  merchantId : String
  customerId : String
  location : String
  deviceId : String
  ipAddress : String
  timestamp : String
deriving Repr, DecidableEq

/-- The `DetectionResult` record of `src/types.ts`. -/
structure DetectionResult where
  isFraudulent : Bool
  confidence : ℚ
  processingTime : ℚ
  quantumContribution : ℚ
deriving Repr, DecidableEq

/-- The syntactic part of `Number.parseFloat` on the decimal-literal
strings the repository feeds it: an optional sign, then a longest
prefix of digits, an optional point and a longest run of fraction
digits.  A string with no digit in that prefix gives `NaN`, embedded
as `none`; otherwise the result records the sign, the integer part,
the fraction digits read as a natural number, and the number of
fraction digits.  (The JavaScript extras — leading whitespace,
exponents, `Infinity` — never occur in this repository and are not
modelled.) -/
def parseFloatParts (s : String) : Option (Bool × ℕ × ℕ × ℕ) :=
  let cs := s.toList
  let signed : Bool × List Char :=
    match cs with
    | '-' :: rest => (true, rest)
    | '+' :: rest => (false, rest)
    | _ => (false, cs)
  let intPart := signed.2.takeWhile Char.isDigit
  let rest := signed.2.dropWhile Char.isDigit
  let fracPart :=
    match rest with
    | '.' :: r => r.takeWhile Char.isDigit
    | _ => []
  if intPart.isEmpty && fracPart.isEmpty then
    none
  else
    some (signed.1,
      intPart.foldl (fun n c => 10 * n + (c.toNat - 48)) 0,
      fracPart.foldl (fun n c => 10 * n + (c.toNat - 48)) 0,
      fracPart.length)

/-- The numeric value of a parsed decimal literal. -/
def partsToRat (p : Bool × ℕ × ℕ × ℕ) : ℚ :=
  let q : ℚ := (p.2.1 : ℚ) + (p.2.2.1 : ℚ) / (10 : ℚ) ^ p.2.2.2
  if p.1 then -q else q

/-- `Number.parseFloat`: the numeric reading of the decimal literal,
or `none` for `NaN`. -/
def parseFloat (s : String) : Option ℚ :=
  (parseFloatParts s).map partsToRat

/-- The JavaScript comparison `a > c` where `a` may be `NaN`
(`none`): every comparison with `NaN` is false. -/
def jsGT (a : Option ℚ) (c : ℚ) : Bool :=
  match a with
  | some x => decide (c < x)
  | none => false

/-- `detectFraud` of `src/unnamed/part_000`.  `rng n` is the value of
the `(n+1)`-st `Math.random()` call: the executed tier branch draws
`rng 0` for the fraud verdict and `rng 1` for the confidence, then
`rng 2` gives the simulated processing time and `rng 3` the simulated
quantum contribution.  The source compares `Math.random() > 0.7`
(resp. `0.9`, `0.95`), i.e. the draw on the left. -/
def detectFraud (rng : ℕ → ℚ) (transaction : TransactionData) : DetectionResult :=
  let amount := parseFloat transaction.amount
  let isFraudulent : Bool :=
    if jsGT amount 5000 then decide (7/10 < rng 0)
    else if jsGT amount 1000 then decide (9/10 < rng 0)
    else decide (19/20 < rng 0)
  let confidence : ℚ :=
    if jsGT amount 5000 then
      if isFraudulent then 85 + rng 1 * 10 else 75 + rng 1 * 15
    else if jsGT amount 1000 then
      if isFraudulent then 90 + rng 1 * 5 else 85 + rng 1 * 10
    else
      if isFraudulent then 95 + rng 1 * 5 else 90 + rng 1 * 8
  { isFraudulent := isFraudulent
    confidence := confidence
    processingTime := 100 + rng 2 * 150
    quantumContribution := 60 + rng 3 * 25 }

/-- The feature vector built by `preprocessTransaction` in
`src/types.ts`: the parsed amount (possibly `NaN`) and six risk
sub-scores. -/
structure FeatureVector where
  amount : Option ℚ
  customerRiskScore : ℚ
  merchantRiskScore : ℚ
  locationRiskScore : ℚ
  deviceRiskScore : ℚ
  ipRiskScore : ℚ
  timeOfDayRiskScore : ℚ
deriving Repr, DecidableEq

/-- `preprocessTransaction` of `src/types.ts`.  Each helper
(`calculateCustomerRiskScore`, ..., `calculateTimeRiskScore`) returns
`Math.random() * 0.5`; the six calls consume `rng 0` .. `rng 5` in
field order. -/
def preprocessTransaction (rng : ℕ → ℚ) (t : TransactionData) : FeatureVector :=
  { amount := parseFloat t.amount
    customerRiskScore := rng 0 * (1/2)
    merchantRiskScore := rng 1 * (1/2)
    locationRiskScore := rng 2 * (1/2)
    deviceRiskScore := rng 3 * (1/2)
    ipRiskScore := rng 4 * (1/2)
    timeOfDayRiskScore := rng 5 * (1/2) }

/-- The record returned by `runClassicalMLModel`. -/
structure MLPrediction where
  isFraudulent : Bool
  confidenceScore : ℚ
  processingTime : ℚ
deriving Repr, DecidableEq

/-- The weighted risk score computed inside `runClassicalMLModel`
(`src/types.ts`): `0.4 * (amount > 1000 ? 0.7 : 0.3)` plus the six
weighted sub-scores. -/
def classicalRiskScore (f : FeatureVector) : ℚ :=
  2/5 * (if jsGT f.amount 1000 then 7/10 else 3/10) +
  3/20 * f.customerRiskScore +
  3/20 * f.merchantRiskScore +
  1/10 * f.locationRiskScore +
  1/10 * f.deviceRiskScore +
  1/20 * f.ipRiskScore +
  1/20 * f.timeOfDayRiskScore

/-- `runClassicalMLModel` of `src/types.ts`.  `r` is the
`Math.random()` draw used for the simulated processing time. -/
def runClassicalMLModel (f : FeatureVector) (r : ℚ) : MLPrediction :=
  let riskScore := classicalRiskScore f
  { isFraudulent := decide (3/5 < riskScore)
    confidenceScore := if 3/5 < riskScore then riskScore else 1 - riskScore
    processingTime := 50 + r * 30 }

/-- The record returned by `runQuantumAnnealingSolver`. -/
structure QuantumResult where
  isFraudulent : Bool
  confidence : ℚ
  processingTime : ℚ
deriving Repr, DecidableEq

/-- `calculateQuantumRiskScore` of `src/types.ts`.  The source adds
`Math.sin(c * m * Math.PI) * 0.1 + Math.cos(l * t * Math.PI) * 0.1`
to the weighted base score; the transcendental maps
`x ↦ Math.sin(x * π)` and `x ↦ Math.cos(x * π)` are taken as explicit
parameters `sinPi`, `cosPi` (no claim depends on their values, and
the final `Math.min(Math.max(..., 0), 1)` clamp bounds the score
whatever they return). -/
def calculateQuantumRiskScore (sinPi cosPi : ℚ → ℚ) (f : FeatureVector) : ℚ :=
  let baseScore :=
    3/10 * (if jsGT f.amount 1000 then 4/5 else 2/5) +
    1/5 * f.customerRiskScore +
    1/5 * f.merchantRiskScore +
    1/10 * f.locationRiskScore +
    1/10 * f.deviceRiskScore +
    1/20 * f.ipRiskScore +
    1/20 * f.timeOfDayRiskScore
  let nonLinearComponent :=
    sinPi (f.customerRiskScore * f.merchantRiskScore) * (1/10) +
    cosPi (f.locationRiskScore * f.timeOfDayRiskScore) * (1/10)
  min (max (baseScore + nonLinearComponent) 0) 1

/-- `runQuantumAnnealingSolver` of `src/types.ts`.  The artificial
`setTimeout` delay has no semantic content; `r` is the draw for the
simulated processing time. -/
def runQuantumAnnealingSolver (sinPi cosPi : ℚ → ℚ) (f : FeatureVector) (r : ℚ) : QuantumResult :=
  let quantumRiskScore := calculateQuantumRiskScore sinPi cosPi f
  { isFraudulent := decide (1/2 < quantumRiskScore)
    confidence :=
      if 1/2 < quantumRiskScore then quantumRiskScore * 100
      else (1 - quantumRiskScore) * 100
    processingTime := 150 + r * 100 }

/-- The outcome of `JSON.parse(event.body)` in the handler: either the
body is a JSON document of the `TransactionData` shape, or the parse
throws.  JSON parsing is a language built-in; only this dichotomy of
outcomes matters to the handler. -/
inductive RequestBody where
  | valid (t : TransactionData)
  | malformed
deriving Repr, DecidableEq

/-- The body of a handler response: `JSON.stringify` of either a
`DetectionResult` or the error object `{ error: string }`. -/
inductive ResponseBody where
  | result (r : DetectionResult)
  | fail (msg : String)
deriving Repr, DecidableEq

/-- The record returned by the Lambda `handler` (the constant
Content-Type header carries no information and is dropped). -/
structure LambdaResponse where
  statusCode : ℕ
  body : ResponseBody
deriving Repr, DecidableEq

/-- The classical screening stage of the handler: preprocessing
(draws `rng 0` .. `rng 5`) followed by `runClassicalMLModel`
(draw `rng 6`). -/
def classicalStage (rng : ℕ → ℚ) (t : TransactionData) : MLPrediction :=
  runClassicalMLModel (preprocessTransaction rng t) (rng 6)

/-- The AWS Lambda `handler` of `src/types.ts`.  A malformed body
makes `JSON.parse` throw, and the `catch` block answers 500 with
`{ error: "Failed to process transaction" }`; otherwise the classical
screening stage runs, the quantum stage runs exactly when the
classical confidence is below 0.85, and the combined result is
answered with status 200.  Nothing after the parse can throw, so the
`catch` is exercised only by the parse. -/
def handler (sinPi cosPi : ℚ → ℚ) (rng : ℕ → ℚ) (event : RequestBody) : LambdaResponse :=
  match event with
  | .malformed => { statusCode := 500, body := .fail "Failed to process transaction" }
  | .valid transactionData =>
    let processedFeatures := preprocessTransaction rng transactionData
    let mlPrediction := runClassicalMLModel processedFeatures (rng 6)
    let finalResult : DetectionResult :=
      if mlPrediction.confidenceScore < 17/20 then
        let quantumResult := runQuantumAnnealingSolver sinPi cosPi processedFeatures (rng 7)
        { isFraudulent := quantumResult.isFraudulent
          confidence := quantumResult.confidence
          processingTime := quantumResult.processingTime
          quantumContribution := 75 }
      else
        { isFraudulent := mlPrediction.isFraudulent
          confidence := mlPrediction.confidenceScore * 100
          processingTime := mlPrediction.processingTime
          quantumContribution := 25 }
    { statusCode := 200, body := .result finalResult }

/-- The three-tier contract a `DetectionResult` must satisfy given the
fraud-verdict draw `r0`: fraudulent exactly when `r0` exceeds the
tier threshold, with the confidence in the tier range for each
verdict. -/
def tierContract (R : DetectionResult) (r0 : ℚ)
    (thresh fLo fHi nLo nHi : ℚ) : Prop :=
  (R.isFraudulent = true ↔ thresh < r0) ∧
  (R.isFraudulent = true → fLo ≤ R.confidence ∧ R.confidence ≤ fHi) ∧
  (R.isFraudulent = false → nLo ≤ R.confidence ∧ R.confidence ≤ nHi)

/-- A concrete transaction (the example of spec §8) with a chosen
amount string. -/
def sampleTx (s : String) : TransactionData :=
  { amount := s
    merchantId := "MERCH-8765"
    customerId := "CUST-1234"
    location := "New York, USA"
    deviceId := "DEV-5678"
    ipAddress := "192.168.1.1"
    timestamp := "2024-01-01T00:00:00.000Z" }

/-- A concrete random source: every draw is one half. -/
def rngHalf : ℕ → ℚ := fun _ => 1/2

/-- A concrete stand-in for the transcendental parameters: the zero
map. -/
def zeroTrig : ℚ → ℚ := fun _ => 0

/-- Per-tier evaluation of `detectFraud`: high-value tier. -/
lemma detectFraud_eq_high (rng : ℕ → ℚ) (t : TransactionData) (a : ℚ)
    (ha : parseFloat t.amount = some a) (h5 : 5000 < a) :
    detectFraud rng t =
      { isFraudulent := decide (7/10 < rng 0)
        confidence := if 7/10 < rng 0 then 85 + rng 1 * 10 else 75 + rng 1 * 15
        processingTime := 100 + rng 2 * 150
        quantumContribution := 60 + rng 3 * 25 } := by
  simp [detectFraud, jsGT, ha, h5]

/-- Per-tier evaluation of `detectFraud`: medium-value tier. -/
lemma detectFraud_eq_medium (rng : ℕ → ℚ) (t : TransactionData) (a : ℚ)
    (ha : parseFloat t.amount = some a) (h5 : ¬ 5000 < a) (h1 : 1000 < a) :
    detectFraud rng t =
      { isFraudulent := decide (9/10 < rng 0)
        confidence := if 9/10 < rng 0 then 90 + rng 1 * 5 else 85 + rng 1 * 10
        processingTime := 100 + rng 2 * 150
        quantumContribution := 60 + rng 3 * 25 } := by
  simp [detectFraud, jsGT, ha, h5, h1]

/-- Per-tier evaluation of `detectFraud`: low-value tier. -/
lemma detectFraud_eq_low (rng : ℕ → ℚ) (t : TransactionData) (a : ℚ)
    (ha : parseFloat t.amount = some a) (h1 : ¬ 1000 < a) :
    detectFraud rng t =
      { isFraudulent := decide (19/20 < rng 0)
        confidence := if 19/20 < rng 0 then 95 + rng 1 * 5 else 90 + rng 1 * 8
        processingTime := 100 + rng 2 * 150
        quantumContribution := 60 + rng 3 * 25 } := by
  have h5 : ¬ 5000 < a := fun h => h1 (by linarith)
  simp [detectFraud, jsGT, ha, h5, h1]

/-- Evaluation of `detectFraud` when the amount does not parse
(`Number.parseFloat` gives `NaN`): both tier comparisons are false and
the low-value branch runs. -/
lemma detectFraud_eq_nan (rng : ℕ → ℚ) (t : TransactionData)
    (ha : parseFloat t.amount = none) :
    detectFraud rng t =
      { isFraudulent := decide (19/20 < rng 0)
        confidence := if 19/20 < rng 0 then 95 + rng 1 * 5 else 90 + rng 1 * 8
        processingTime := 100 + rng 2 * 150
        quantumContribution := 60 + rng 3 * 25 } := by
  simp [detectFraud, jsGT, ha]

/-- A record of the shape every tier branch produces satisfies the
tier contract as soon as the confidence draw is in `[0,1)` and the
branch ranges fit. -/
lemma tierContract_mk (r0 r1 : ℚ) (th fLo fMul fHi nLo nMul nHi pt qc : ℚ)
    (h0 : 0 ≤ r1) (h1 : r1 < 1) (hfm : 0 ≤ fMul) (hnm : 0 ≤ nMul)
    (hf : fLo + fMul ≤ fHi) (hn : nLo + nMul ≤ nHi) :
    tierContract
      { isFraudulent := decide (th < r0)
        confidence := if th < r0 then fLo + r1 * fMul else nLo + r1 * nMul
        processingTime := pt
        quantumContribution := qc } r0 th fLo fHi nLo nHi := by
  unfold tierContract
  by_cases h : th < r0 <;>
    simp only [h, decide_eq_true_eq, if_pos, if_neg, decide_eq_false_iff_not,
      not_false_eq_true, if_true, if_false, not_true, decide_True, decide_False] <;>
    constructor
  · simp [h]
  · refine ⟨fun _ => ⟨by nlinarith, by nlinarith⟩, fun hc => ?_⟩
    simp [h] at hc
  · simp [h]
  · refine ⟨fun hc => ?_, fun _ => ⟨by nlinarith, by nlinarith⟩⟩
    simp [h] at hc

/-- The amount field of `sampleTx s` is `s` itself. -/
lemma sampleTx_amount (s : String) : (sampleTx s).amount = s := rfl

/-- The constant one-half source satisfies the `Math.random()` range
contract. -/
lemma rngHalf_mem (n : ℕ) : 0 ≤ rngHalf n ∧ rngHalf n < 1 := by
  norm_num [rngHalf]

/-- C1.  For every transaction whose amount parses to `a`,
`detectFraud` follows the three-tier contract: above 5000 the verdict
is fraudulent exactly when the verdict draw exceeds 0.7 (an event of
measure 3/10 of the uniform unit interval), with confidence in
`[85,95]` when fraudulent and `[75,90]` otherwise; in `(1000,5000]`
the threshold is 0.9 (measure 1/10), with confidence in `[90,95]`
resp. `[85,95]`; at or below 1000 the threshold is 0.95 (measure
1/20), with confidence in `[95,100]` resp. `[90,98]`. -/
theorem detectFraud_tier_contract (rng : ℕ → ℚ)
    (hr : ∀ n, 0 ≤ rng n ∧ rng n < 1) (t : TransactionData) (a : ℚ)
    (ha : parseFloat t.amount = some a) :
    (5000 < a → tierContract (detectFraud rng t) (rng 0) (7/10) 85 95 75 90) ∧
    (1000 < a ∧ a ≤ 5000 →
      tierContract (detectFraud rng t) (rng 0) (9/10) 90 95 85 95) ∧
    (a ≤ 1000 → tierContract (detectFraud rng t) (rng 0) (19/20) 95 100 90 98) ∧
    MeasureTheory.volume (Set.Ioo (7/10 : ℝ) 1) = ENNReal.ofReal (3/10) ∧
    MeasureTheory.volume (Set.Ioo (9/10 : ℝ) 1) = ENNReal.ofReal (1/10) ∧
    MeasureTheory.volume (Set.Ioo (19/20 : ℝ) 1) = ENNReal.ofReal (1/20) := by
  refine ⟨?_, ?_, ?_, ?_, ?_, ?_⟩
  · intro h5
    rw [detectFraud_eq_high rng t a ha h5]
    exact tierContract_mk _ _ _ _ _ _ _ _ _ _ _ (hr 1).1 (hr 1).2
      (by norm_num) (by norm_num) (by norm_num) (by norm_num)
  · rintro ⟨h1, h5⟩
    rw [detectFraud_eq_medium rng t a ha (by linarith) h1]
    exact tierContract_mk _ _ _ _ _ _ _ _ _ _ _ (hr 1).1 (hr 1).2
      (by norm_num) (by norm_num) (by norm_num) (by norm_num)
  · intro h1
    rw [detectFraud_eq_low rng t a ha (by linarith)]
    exact tierContract_mk _ _ _ _ _ _ _ _ _ _ _ (hr 1).1 (hr 1).2
      (by norm_num) (by norm_num) (by norm_num) (by norm_num)
  · rw [Real.volume_Ioo]; norm_num
  · rw [Real.volume_Ioo]; norm_num
  · rw [Real.volume_Ioo]; norm_num

/-- C1, witness: the tier contract evaluated on the constant one-half
source and the spec example transaction with amount 6000. -/
theorem detectFraud_tier_contract_witness :
    (∀ n, 0 ≤ rngHalf n ∧ rngHalf n < 1) ∧
    parseFloat (sampleTx "6000").amount = some 6000 ∧
    ((5000 < (6000 : ℚ) →
        tierContract (detectFraud rngHalf (sampleTx "6000")) (rngHalf 0)
          (7/10) 85 95 75 90) ∧
      (1000 < (6000 : ℚ) ∧ (6000 : ℚ) ≤ 5000 →
        tierContract (detectFraud rngHalf (sampleTx "6000")) (rngHalf 0)
          (9/10) 90 95 85 95) ∧
      ((6000 : ℚ) ≤ 1000 →
        tierContract (detectFraud rngHalf (sampleTx "6000")) (rngHalf 0)
          (19/20) 95 100 90 98) ∧
      MeasureTheory.volume (Set.Ioo (7/10 : ℝ) 1) = ENNReal.ofReal (3/10) ∧
      MeasureTheory.volume (Set.Ioo (9/10 : ℝ) 1) = ENNReal.ofReal (1/10) ∧
      MeasureTheory.volume (Set.Ioo (19/20 : ℝ) 1) = ENNReal.ofReal (1/20)) := by
  have ha : parseFloat (sampleTx "6000").amount = some 6000 := by
    have h : parseFloatParts "6000" = some (false, 6000, 0, 0) := by decide
    simp [sampleTx_amount, parseFloat, h, partsToRat]
  exact ⟨rngHalf_mem, ha,
    detectFraud_tier_contract rngHalf rngHalf_mem (sampleTx "6000") 6000 ha⟩

/-- C2.  For every transaction whose amount parses to a number
`a ≥ 0`, the result of `detectFraud` has confidence in `[0,100]`,
quantum contribution in `[0,100]`, and a positive processing time,
in every tier. -/
theorem detectFraud_output_ranges (rng : ℕ → ℚ)
    (hr : ∀ n, 0 ≤ rng n ∧ rng n < 1) (t : TransactionData) (a : ℚ)
    (ha : parseFloat t.amount = some a) (ha0 : 0 ≤ a) :
    0 ≤ (detectFraud rng t).confidence ∧ (detectFraud rng t).confidence ≤ 100 ∧
    0 ≤ (detectFraud rng t).quantumContribution ∧
    (detectFraud rng t).quantumContribution ≤ 100 ∧
    0 < (detectFraud rng t).processingTime := by
  by_cases h5 : 5000 < a
  · rw [detectFraud_eq_high rng t a ha h5]
    dsimp only
    split_ifs <;>
      refine ⟨?_, ?_, ?_, ?_, ?_⟩ <;>
      nlinarith [(hr 1).1, (hr 1).2, (hr 2).1, (hr 3).1, (hr 3).2]
  · by_cases h1 : 1000 < a
    · rw [detectFraud_eq_medium rng t a ha h5 h1]
      dsimp only
      split_ifs <;>
        refine ⟨?_, ?_, ?_, ?_, ?_⟩ <;>
        nlinarith [(hr 1).1, (hr 1).2, (hr 2).1, (hr 3).1, (hr 3).2]
    · rw [detectFraud_eq_low rng t a ha h1]
      dsimp only
      split_ifs <;>
        refine ⟨?_, ?_, ?_, ?_, ?_⟩ <;>
        nlinarith [(hr 1).1, (hr 1).2, (hr 2).1, (hr 3).1, (hr 3).2]

/-- C2, witness: the range bounds evaluated on the constant one-half
source and the spec example transaction with amount 1250.00. -/
theorem detectFraud_output_ranges_witness :
    (∀ n, 0 ≤ rngHalf n ∧ rngHalf n < 1) ∧
    parseFloat (sampleTx "1250.00").amount = some 1250 ∧
    (0 : ℚ) ≤ 1250 ∧
    (0 ≤ (detectFraud rngHalf (sampleTx "1250.00")).confidence ∧
      (detectFraud rngHalf (sampleTx "1250.00")).confidence ≤ 100 ∧
      0 ≤ (detectFraud rngHalf (sampleTx "1250.00")).quantumContribution ∧
      (detectFraud rngHalf (sampleTx "1250.00")).quantumContribution ≤ 100 ∧
      0 < (detectFraud rngHalf (sampleTx "1250.00")).processingTime) := by
  have ha : parseFloat (sampleTx "1250.00").amount = some 1250 := by
    have h : parseFloatParts "1250.00" = some (false, 1250, 0, 2) := by decide
    simp [sampleTx_amount, parseFloat, h, partsToRat]
  exact ⟨rngHalf_mem, ha, by norm_num,
    detectFraud_output_ranges rngHalf rngHalf_mem (sampleTx "1250.00") 1250 ha
      (by norm_num)⟩

/-- The request-body parse fails on no numeric prefix: the amount
string `abc` gives `NaN`. -/
lemma parseFloat_abc : parseFloat (sampleTx "abc").amount = none := by
  have h : parseFloatParts "abc" = none := by decide
  simp [sampleTx_amount, parseFloat, h]

/-- C3.  The spec asks that an unparseable amount make `score` and
`handle` fail with an `InvalidInputError`; the code has no validation
at all.  On the amount string `abc`, `detectFraud` silently returns a
complete low-tier result (here, under the constant one-half source:
not fraudulent, confidence 94, processing time 175, quantum
contribution 72.5), and the handler answers it with status 200 rather
than any error. -/
theorem detectFraud_unparseable_silent :
    detectFraud rngHalf (sampleTx "abc") =
      { isFraudulent := false, confidence := 94, processingTime := 175
        quantumContribution := 145/2 } ∧
    (handler zeroTrig zeroTrig rngHalf (.valid (sampleTx "abc"))).statusCode
      = 200 := by
  constructor
  · rw [detectFraud_eq_nan rngHalf (sampleTx "abc") parseFloat_abc]
    norm_num [rngHalf]
  · rfl

/-- C6.  For every transaction and every random source within
`[0,1)`, the processing time of `detectFraud` is `100 + 150·r` for
its draw `r` and lies in `[100,250)`, and the quantum contribution is
`60 + 25·r` for its draw and lies in `[60,85)`. -/
theorem detectFraud_latency_and_quantum (rng : ℕ → ℚ)
    (hr : ∀ n, 0 ≤ rng n ∧ rng n < 1) (t : TransactionData) :
    (detectFraud rng t).processingTime = 100 + rng 2 * 150 ∧
    100 ≤ (detectFraud rng t).processingTime ∧
    (detectFraud rng t).processingTime < 250 ∧
    (detectFraud rng t).quantumContribution = 60 + rng 3 * 25 ∧
    60 ≤ (detectFraud rng t).quantumContribution ∧
    (detectFraud rng t).quantumContribution < 85 := by
  have hpt : (detectFraud rng t).processingTime = 100 + rng 2 * 150 := rfl
  have hqc : (detectFraud rng t).quantumContribution = 60 + rng 3 * 25 := rfl
  refine ⟨hpt, ?_, ?_, hqc, ?_, ?_⟩ <;> simp only [hpt, hqc] <;>
    nlinarith [(hr 2).1, (hr 2).2, (hr 3).1, (hr 3).2]

/-- C6, witness: the latency and quantum-contribution draws evaluated
on the constant one-half source. -/
theorem detectFraud_latency_and_quantum_witness :
    (∀ n, 0 ≤ rngHalf n ∧ rngHalf n < 1) ∧
    ((detectFraud rngHalf (sampleTx "50")).processingTime
        = 100 + rngHalf 2 * 150 ∧
      100 ≤ (detectFraud rngHalf (sampleTx "50")).processingTime ∧
      (detectFraud rngHalf (sampleTx "50")).processingTime < 250 ∧
      (detectFraud rngHalf (sampleTx "50")).quantumContribution
        = 60 + rngHalf 3 * 25 ∧
      60 ≤ (detectFraud rngHalf (sampleTx "50")).quantumContribution ∧
      (detectFraud rngHalf (sampleTx "50")).quantumContribution < 85) :=
  ⟨rngHalf_mem,
    detectFraud_latency_and_quantum rngHalf rngHalf_mem (sampleTx "50")⟩

/-- C7.  `detectFraud` is a pure function of its random source and
its input: the same source and the same transaction give the same
result, and the output depends on no transaction field other than the
amount (no hidden state). -/
theorem detectFraud_deterministic (rng : ℕ → ℚ) (t u : TransactionData)
    (h : t.amount = u.amount) :
    detectFraud rng t = detectFraud rng t ∧
    detectFraud rng t = detectFraud rng u := by
  refine ⟨rfl, ?_⟩
  unfold detectFraud
  rw [h]

/-- A copy of the example transaction that differs from
`sampleTx "50"` in every identifying field except the amount. -/
def otherTx : TransactionData :=
  { amount := "50"
    merchantId := "MERCH-0001"
    customerId := "CUST-0002"
    location := "Paris, France"
    deviceId := "DEV-0003"
    ipAddress := "10.0.0.1"
    timestamp := "2025-06-30T12:00:00.000Z" }

/-- C7, witness: determinism evaluated on the constant one-half
source, on two transactions that share only their amount. -/
theorem detectFraud_deterministic_witness :
    (sampleTx "50").amount = otherTx.amount ∧
    (detectFraud rngHalf (sampleTx "50") = detectFraud rngHalf (sampleTx "50") ∧
      detectFraud rngHalf (sampleTx "50") = detectFraud rngHalf otherTx) :=
  ⟨rfl, detectFraud_deterministic rngHalf (sampleTx "50") otherTx rfl⟩

/-- C8.  When the amount string does not parse, `detectFraud` does
not fail: `NaN` makes both tier comparisons false, the low-value
branch runs, the verdict is fraudulent exactly when the verdict draw
exceeds 0.95 (an event of measure 1/20 of the uniform unit interval),
and the confidence lies in `[90,100)`. -/
theorem detectFraud_nan_low_tier (rng : ℕ → ℚ)
    (hr : ∀ n, 0 ≤ rng n ∧ rng n < 1) (t : TransactionData)
    (ha : parseFloat t.amount = none) :
    tierContract (detectFraud rng t) (rng 0) (19/20) 95 100 90 98 ∧
    90 ≤ (detectFraud rng t).confidence ∧
    (detectFraud rng t).confidence < 100 ∧
    MeasureTheory.volume (Set.Ioo (19/20 : ℝ) 1) = ENNReal.ofReal (1/20) := by
  rw [detectFraud_eq_nan rng t ha]
  refine ⟨tierContract_mk _ _ _ _ _ _ _ _ _ _ _ (hr 1).1 (hr 1).2
      (by norm_num) (by norm_num) (by norm_num) (by norm_num), ?_, ?_,
    by rw [Real.volume_Ioo]; norm_num⟩ <;>
    dsimp only <;> split_ifs <;> nlinarith [(hr 1).1, (hr 1).2]

/-- C8, witness: the `NaN` path evaluated on the constant one-half
source and the amount string `abc`. -/
theorem detectFraud_nan_low_tier_witness :
    (∀ n, 0 ≤ rngHalf n ∧ rngHalf n < 1) ∧
    parseFloat (sampleTx "abc").amount = none ∧
    (tierContract (detectFraud rngHalf (sampleTx "abc")) (rngHalf 0)
        (19/20) 95 100 90 98 ∧
      90 ≤ (detectFraud rngHalf (sampleTx "abc")).confidence ∧
      (detectFraud rngHalf (sampleTx "abc")).confidence < 100 ∧
      MeasureTheory.volume (Set.Ioo (19/20 : ℝ) 1) = ENNReal.ofReal (1/20)) :=
  ⟨rngHalf_mem, parseFloat_abc,
    detectFraud_nan_low_tier rngHalf rngHalf_mem (sampleTx "abc") parseFloat_abc⟩

/-- Evaluation of the handler on a body that parses: status 200, and
the serialized result comes from the quantum stage exactly when the
classical screening confidence is below 0.85, and from the classical
stage alone otherwise. -/
lemma handler_valid_eq (sinPi cosPi : ℚ → ℚ) (rng : ℕ → ℚ) (t : TransactionData) :
    handler sinPi cosPi rng (.valid t) =
      { statusCode := 200
        body := .result (
          if (classicalStage rng t).confidenceScore < 17/20 then
            { isFraudulent := (runQuantumAnnealingSolver sinPi cosPi
                (preprocessTransaction rng t) (rng 7)).isFraudulent
              confidence := (runQuantumAnnealingSolver sinPi cosPi
                (preprocessTransaction rng t) (rng 7)).confidence
              processingTime := (runQuantumAnnealingSolver sinPi cosPi
                (preprocessTransaction rng t) (rng 7)).processingTime
              quantumContribution := 75 }
          else
            { isFraudulent := (classicalStage rng t).isFraudulent
              confidence := (classicalStage rng t).confidenceScore * 100
              processingTime := (classicalStage rng t).processingTime
              quantumContribution := 25 }) } := rfl

/-- C4.  For every body that parses as a transaction, the handler
runs the classical screening stage and answers status 200 with a
serialized `DetectionResult`; the quantum deep-analysis stage is
taken exactly when the classical confidence is strictly below 0.85
(observable as quantum contribution 75 rather than 25); a malformed
body gets the structured error with status 500. -/
theorem handler_two_stage_gate (sinPi cosPi : ℚ → ℚ) (rng : ℕ → ℚ)
    (t : TransactionData) :
    (∃ R : DetectionResult,
      handler sinPi cosPi rng (.valid t) =
        { statusCode := 200, body := .result R } ∧
      ((classicalStage rng t).confidenceScore < 17/20 ↔
        R.quantumContribution = 75) ∧
      (17/20 ≤ (classicalStage rng t).confidenceScore ↔
        R.quantumContribution = 25)) ∧
    handler sinPi cosPi rng .malformed =
      { statusCode := 500, body := .fail "Failed to process transaction" } := by
  refine ⟨?_, rfl⟩
  rw [handler_valid_eq]
  by_cases h : (classicalStage rng t).confidenceScore < 17/20
  · rw [if_pos h]
    exact ⟨_, rfl, iff_of_true h rfl,
      iff_of_false (not_le.mpr h) (by norm_num)⟩
  · rw [if_neg h]
    exact ⟨_, rfl, iff_of_false h (by norm_num),
      iff_of_true (not_lt.mp h) rfl⟩

/-- C4, witness: the two-stage gate evaluated on the constant
one-half source and the spec example transaction with amount 50. -/
theorem handler_two_stage_gate_witness :
    (∃ R : DetectionResult,
      handler zeroTrig zeroTrig rngHalf (.valid (sampleTx "50")) =
        { statusCode := 200, body := .result R } ∧
      ((classicalStage rngHalf (sampleTx "50")).confidenceScore < 17/20 ↔
        R.quantumContribution = 75) ∧
      (17/20 ≤ (classicalStage rngHalf (sampleTx "50")).confidenceScore ↔
        R.quantumContribution = 25)) ∧
    handler zeroTrig zeroTrig rngHalf .malformed =
      { statusCode := 500, body := .fail "Failed to process transaction" } :=
  handler_two_stage_gate zeroTrig zeroTrig rngHalf (sampleTx "50")

/-- C5.  The handler is total and never throws to its caller: for
every event its answer is either status 200 with a serialized
`DetectionResult`, or status 500 with the structured
`{ error: string }` body. -/
theorem handler_response_dichotomy (sinPi cosPi : ℚ → ℚ) (rng : ℕ → ℚ)
    (e : RequestBody) :
    ((handler sinPi cosPi rng e).statusCode = 200 ∧
      ∃ R : DetectionResult, (handler sinPi cosPi rng e).body = .result R) ∨
    ((handler sinPi cosPi rng e).statusCode = 500 ∧
      (handler sinPi cosPi rng e).body =
        .fail "Failed to process transaction") := by
  cases e with
  | valid t => exact Or.inl ⟨rfl, ⟨_, rfl⟩⟩
  | malformed => exact Or.inr ⟨rfl, rfl⟩

/-- C9.  The classical screening stage can never classify a
transaction as fraudulent: with every risk sub-score in `[0,0.5)`,
its weighted risk score stays below `0.58 + ε < 0.6`, so its verdict
is always `false`; consequently on the classical-only path (classical
confidence at least 0.85) the handler always reports a non-fraudulent
result. -/
theorem classical_screening_never_fraudulent (sinPi cosPi : ℚ → ℚ)
    (rng : ℕ → ℚ) (hr : ∀ n, 0 ≤ rng n ∧ rng n < 1) (t : TransactionData) :
    classicalRiskScore (preprocessTransaction rng t) < 3/5 ∧
    (classicalStage rng t).isFraudulent = false ∧
    (17/20 ≤ (classicalStage rng t).confidenceScore →
      ∀ R : DetectionResult,
        (handler sinPi cosPi rng (.valid t)).body = .result R →
        R.isFraudulent = false) := by
  have hrs : classicalRiskScore (preprocessTransaction rng t) < 3/5 := by
    unfold classicalRiskScore preprocessTransaction
    dsimp only
    split_ifs <;>
      nlinarith [(hr 0).1, (hr 0).2, (hr 1).1, (hr 1).2, (hr 2).1, (hr 2).2,
        (hr 3).1, (hr 3).2, (hr 4).1, (hr 4).2, (hr 5).1, (hr 5).2]
  have hnlt : ¬ 3/5 < classicalRiskScore (preprocessTransaction rng t) :=
    not_lt.mpr hrs.le
  have hif : (classicalStage rng t).isFraudulent = false := by
    simp [classicalStage, runClassicalMLModel, hnlt]
  refine ⟨hrs, hif, ?_⟩
  intro hconf R hR
  have hbody : (handler sinPi cosPi rng (.valid t)).body =
      .result { isFraudulent := (classicalStage rng t).isFraudulent
                confidence := (classicalStage rng t).confidenceScore * 100
                processingTime := (classicalStage rng t).processingTime
                quantumContribution := 25 } := by
    rw [handler_valid_eq]
    dsimp only
    rw [if_neg (not_lt.mpr hconf)]
  rw [hbody] at hR
  injection hR with h2
  rw [← h2]
  exact hif

/-- C9, witness: the classical stage evaluated on the constant
one-half source and the spec example transaction with amount 50. -/
theorem classical_screening_never_fraudulent_witness :
    (∀ n, 0 ≤ rngHalf n ∧ rngHalf n < 1) ∧
    (classicalRiskScore (preprocessTransaction rngHalf (sampleTx "50")) < 3/5 ∧
      (classicalStage rngHalf (sampleTx "50")).isFraudulent = false ∧
      (17/20 ≤ (classicalStage rngHalf (sampleTx "50")).confidenceScore →
        ∀ R : DetectionResult,
          (handler zeroTrig zeroTrig rngHalf (.valid (sampleTx "50"))).body =
            .result R →
          R.isFraudulent = false)) :=
  ⟨rngHalf_mem, classical_screening_never_fraudulent zeroTrig zeroTrig
    rngHalf rngHalf_mem (sampleTx "50")⟩

/-- C10.  Every successful handler response carries a quantum
contribution of exactly 75 (quantum path) or exactly 25 (classical
path); in particular it is never drawn from the `[60,85)` range the
client-side mock uses, yet it always lies within `[0,100]`. -/
theorem handler_quantum_contribution_constant (sinPi cosPi : ℚ → ℚ)
    (rng : ℕ → ℚ) (e : RequestBody) (R : DetectionResult)
    (hR : (handler sinPi cosPi rng e).body = .result R) :
    (R.quantumContribution = 75 ∨ R.quantumContribution = 25) ∧
    0 ≤ R.quantumContribution ∧ R.quantumContribution ≤ 100 := by
  cases e with
  | malformed => exact absurd hR (by simp [handler])
  | valid t =>
    rw [handler_valid_eq] at hR
    dsimp only at hR
    by_cases h : (classicalStage rng t).confidenceScore < 17/20
    · rw [if_pos h] at hR
      injection hR with h2
      rw [← h2]
      exact ⟨Or.inl rfl, by norm_num, by norm_num⟩
    · rw [if_neg h] at hR
      injection hR with h2
      rw [← h2]
      exact ⟨Or.inr rfl, by norm_num, by norm_num⟩

/-- The concrete result the handler produces on the constant one-half
source for the spec example transaction with amount 50 (the quantum
path is taken, with the transcendental parameters instantiated by the
zero map). -/
def quantumPathResult : DetectionResult :=
  { isFraudulent := false
    confidence := 141/2
    processingTime := 200
    quantumContribution := 75 }

/-- C10, witness: the constant quantum contribution evaluated on a
concrete successful response. -/
theorem handler_quantum_contribution_constant_witness :
    (handler zeroTrig zeroTrig rngHalf (.valid (sampleTx "50"))).body =
      .result quantumPathResult ∧
    ((quantumPathResult.quantumContribution = 75 ∨
        quantumPathResult.quantumContribution = 25) ∧
      0 ≤ quantumPathResult.quantumContribution ∧
      quantumPathResult.quantumContribution ≤ 100) := by
  have h : parseFloatParts "50" = some (false, 50, 0, 0) := by decide
  have hb : (handler zeroTrig zeroTrig rngHalf (.valid (sampleTx "50"))).body =
      .result quantumPathResult := by
    simp [handler, preprocessTransaction, runClassicalMLModel, classicalRiskScore,
      parseFloat, h, partsToRat, jsGT, sampleTx, rngHalf, runQuantumAnnealingSolver,
      calculateQuantumRiskScore, zeroTrig, quantumPathResult]
    norm_num
  exact ⟨hb, handler_quantum_contribution_constant zeroTrig zeroTrig rngHalf
    (.valid (sampleTx "50")) quantumPathResult hb⟩
